import Mathlib

/-!
Verification of the batch image-generation core of the repository
(`src/services/geminiService.ts`): the single-item generator
`generateSingleImage` and the batch orchestrator `generateBatchImages`.

The TypeScript is embedded shallowly: the provider call, the fresh
identifier from `generateId()` and the clock value from `Date.now()` are
passed as explicit parameters; a settled JavaScript promise is a `JsResult`;
the interleaving of the batch's settlements is an explicit schedule (the
list of item indices in the order their generation promises settle).
-/

namespace NanoBanana

/-- Outcome of an awaited JavaScript computation: a resolved value, or a
thrown/rejected error carrying its message (the service converts every
caught value to `new Error(message)`, so a `String` message suffices). -/
inductive JsResult (α : Type) where
  | ok : α → JsResult α
  | thrown : String → JsResult α
deriving Repr, DecidableEq

/-- `part.inlineData` of a provider response part: a declared MIME type and
base64 payload. An absent or empty `data` field is modelled as `""`,
matching the JavaScript truthiness test `part.inlineData && part.inlineData.data`. -/
structure InlineData where
  mimeType : String
  data : String
deriving Repr, DecidableEq

/-- One content part of a provider response: optional text, optional inline data. -/
structure Part where
  text : Option String
  inlineData : Option InlineData
deriving Repr, DecidableEq

/-- `candidates[0].content` of a provider response. -/
structure Content where
  parts : Option (List Part)
deriving Repr, DecidableEq

/-- One entry of `response.candidates`. -/
structure Candidate where
  content : Content
deriving Repr, DecidableEq

/-- The provider response shape `generateSingleImage` reads:
`response.candidates[0].content.parts`. -/
structure Response where
  candidates : Option (List Candidate)
deriving Repr, DecidableEq

/-- The record `generateSingleImage` builds on success; mirrors the
`GeneratedImage` interface of the repository's types file field for field
(including the `selected` flag, which the interface declares and the
service initialises). -/
structure GeneratedImage where
  id : String
  base64 : String
  prompt : String
  timestamp : Nat
  selected : Bool
  aspectRatio : String
deriving Repr, DecidableEq

/-- `fullPrompt` from `generateSingleImage`:
`systemInstruction ? systemInstruction + "\n\nUser Request: " + prompt : prompt`
(the empty string is falsy in JavaScript). -/
def fullPrompt (systemInstruction prompt : String) : String :=
  if systemInstruction = "" then prompt
  else systemInstruction ++ "\n\nUser Request: " ++ prompt

/-- The parsing loop of `generateSingleImage`: scan the parts in order and
take the first `part.inlineData.data` that is truthy (non-empty), never
looking at `mimeType`; result `""` (the initial value of `base64Data`) when
no part qualifies. -/
def firstInlineData : List Part → String
  | [] => ""
  | p :: ps =>
    match p.inlineData with
    | some d => if d.data = "" then firstInlineData ps else d.data
    | none => firstInlineData ps

/-- `base64Data` after the parsing block of `generateSingleImage`. The guard
`if (response.candidates && response.candidates[0].content.parts)` leaves
`base64Data = ""` when `candidates` or `parts` is absent; an empty (but
truthy) `candidates` array makes `candidates[0].content` a TypeError, which
the surrounding `try` turns into a thrown error. -/
def extractBase64 (r : Response) : JsResult String :=
  match r.candidates with
  | none => .ok ""
  | some [] => .thrown "Cannot read properties of undefined"
  | some (c :: _) =>
    match c.content.parts with
    | none => .ok ""
    | some parts => .ok (firstInlineData parts)

/-- The body of `generateSingleImage` after the provider call has settled
with `sentResp`; `freshId` is the value of `generateId()` and `now` the
value of `Date.now()`. The whole body sits in `try/catch`, and the catch
block rethrows `new Error(error.message || "Failed to generate image")`. -/
def generateSingleImageCore (prompt aspectRatio : String)
    (sentResp : JsResult Response) (freshId : String) (now : Nat) :
    JsResult GeneratedImage :=
  let tryBody : JsResult GeneratedImage :=
    match sentResp with
    | .thrown m => .thrown m
    | .ok resp =>
      match extractBase64 resp with
      | .thrown m => .thrown m
      | .ok b64 =>
        if b64 = "" then .thrown "No image data found in response"
        else .ok { id := freshId
                   base64 := "data:image/png;base64," ++ b64
                   prompt := prompt
                   timestamp := now
                   selected := false
                   aspectRatio := aspectRatio }
  match tryBody with
  | .ok g => .ok g
  | .thrown m => .thrown (if m = "" then "Failed to generate image" else m)

/-- `generateSingleImage`: combines the system instruction and the prompt
into `fullPrompt` and issues the one provider call with exactly that text
(`provider` maps the instruction text sent to the provider's settled
answer). -/
def generateSingleImage (prompt systemInstruction aspectRatio : String)
    (provider : String → JsResult Response) (freshId : String) (now : Nat) :
    JsResult GeneratedImage :=
  generateSingleImageCore prompt aspectRatio
    (provider (fullPrompt systemInstruction prompt)) freshId now

/-- What one of the `count` mapped async functions of `generateBatchImages`
resolves to: an image, `null` (its item's failure was absorbed), or a
rejection (possible only when `onProgress` itself throws). -/
inductive ItemOutcome where
  | img : GeneratedImage → ItemOutcome
  | nullRes : ItemOutcome
  | rejected : String → ItemOutcome
deriving Repr, DecidableEq

/-- The continuation run when one item's `generateSingleImage` promise
settles, with the shared counter at `completed` on entry. `cb n = none`
means the `onProgress` callback returns normally when invoked with `n`;
`cb n = some m` means that invocation throws an error with message `m`.
Returns the new counter value, the arguments `onProgress` was invoked with
(in order), and the item's outcome. Mirrors
`try { const img = await ...; completed++; onProgress(completed); return img }
catch (e) { completed++; onProgress(completed); return null }`:
a throw from `onProgress` inside the `try` lands in the same `catch`, which
bumps the counter and invokes `onProgress` once more; a throw from that
second invocation escapes and rejects the item's promise. -/
def runItemContinuation (res : Except String GeneratedImage)
    (cb : Nat → Option String) (completed : Nat) :
    Nat × List Nat × ItemOutcome :=
  match res with
  | .ok g =>
    match cb (completed + 1) with
    | none => (completed + 1, [completed + 1], .img g)
    | some _ =>
      match cb (completed + 2) with
      | none => (completed + 2, [completed + 1, completed + 2], .nullRes)
      | some m => (completed + 2, [completed + 1, completed + 2], .rejected m)
  | .error _ =>
    match cb (completed + 1) with
    | none => (completed + 1, [completed + 1], .nullRes)
    | some m => (completed + 1, [completed + 1], .rejected m)

/-- State threaded through the settlements of one batch: the shared
`completed` counter, the `onProgress` invocations so far (in order), and
the per-item outcomes in settlement order. -/
structure BatchAcc where
  completed : Nat
  calls : List Nat
  settled : List (Nat × ItemOutcome)
deriving Repr, DecidableEq

/-- Run the settlement continuations in settlement order `sched` (each
entry an item index); `gen i` is the settled result of item `i`'s
`generateSingleImage` call. The single-threaded event loop serialises the
continuations, so this sequential fold is the exact semantics. -/
def processSchedule (gen : Nat → Except String GeneratedImage)
    (cb : Nat → Option String) : List Nat → BatchAcc → BatchAcc
  | [], acc => acc
  | i :: rest, acc =>
    let step := runItemContinuation (gen i) cb acc.completed
    processSchedule gen cb rest
      ⟨step.1, acc.calls ++ step.2.1, acc.settled ++ [(i, step.2.2)]⟩

/-- `Promise.all` rejects with the earliest rejection in settlement order. -/
def firstRejection : List (Nat × ItemOutcome) → Option String
  | [] => none
  | (_, o) :: rest =>
    match o with
    | .rejected m => some m
    | _ => firstRejection rest

/-- The outcome recorded for item `i` (every `i < count` has exactly one
record when the schedule settles each item once). -/
def itemResult : List (Nat × ItemOutcome) → Nat → ItemOutcome
  | [], _ => .nullRes
  | (j, o) :: rest, i => if j = i then o else itemResult rest i

/-- What a `generateBatchImages` call exposes: the sequence of `onProgress`
invocations, and the promise's final result. -/
structure BatchTrace where
  progressCalls : List Nat
  result : JsResult (List GeneratedImage)
deriving Repr, DecidableEq

/-- `generateBatchImages`: launches `count` items with identical inputs;
`gen i` is the settled result of item `i`'s `generateSingleImage` call,
`cb` the throwing behaviour of `onProgress`, and `sched` the order in which
the items' promises settle (a permutation of `0 .. count-1`). After all
settle, `await Promise.all` either rethrows the first rejection or yields
the per-item values in request order `0 .. count-1`, from which the `null`
entries are filtered out. -/
def generateBatchImages (count : Nat)
    (gen : Nat → Except String GeneratedImage)
    (cb : Nat → Option String) (sched : List Nat) : BatchTrace :=
  let acc := processSchedule gen cb sched ⟨0, [], []⟩
  let result : JsResult (List GeneratedImage) :=
    match firstRejection acc.settled with
    | some m => .thrown m
    | none =>
      .ok ((List.range count).filterMap fun i =>
        match itemResult acc.settled i with
        | .img g => some g
        | _ => none)
  ⟨acc.calls, result⟩

/-- The successful value of a settled single-item call, if any. -/
def successOf (res : Except String GeneratedImage) : Option GeneratedImage :=
  match res with
  | .ok g => some g
  | .error _ => none

/-- Whether a settled single-item call succeeded. -/
def isSuccess (res : Except String GeneratedImage) : Bool :=
  match res with
  | .ok _ => true
  | .error _ => false

/-- The item outcome of a settlement when `onProgress` never throws. -/
def pureOutcome (res : Except String GeneratedImage) : ItemOutcome :=
  match res with
  | .ok g => .img g
  | .error _ => .nullRes

/-- The returned list as the specification describes it: the successful
results "in the order they settled" (settlement order). Stated from the
spec's words only, to compare with what `generateBatchImages` returns. -/
def specSettlementOrderResults (gen : Nat → Except String GeneratedImage)
    (sched : List Nat) : List GeneratedImage :=
  sched.filterMap fun i => successOf (gen i)

/-- Whether a response part carries a truthy inline payload. -/
def partHasData (p : Part) : Bool :=
  match p.inlineData with
  | some d => d.data != ""
  | none => false

/-- The responses the "no image data" claim quantifies over: candidates
absent, or a first candidate whose parts are absent, empty, or all without
a truthy inline payload. (An empty-but-present `candidates` array is not
among them: there the code's guard crashes on `candidates[0].content`,
still a failure but with a TypeError message.) -/
def noInlinePayload (r : Response) : Bool :=
  match r.candidates with
  | none => true
  | some [] => false
  | some (c :: _) =>
    match c.content.parts with
    | none => true
    | some ps => ps.all fun p => !(partHasData p)

/-! Concrete sample data, used to instantiate the theorems below. -/

/-- A sample generated image. -/
def imgA : GeneratedImage :=
  { id := "idA", base64 := "data:image/png;base64,AAAA", prompt := "a cat",
    timestamp := 0, selected := false, aspectRatio := "1:1" }

/-- A second sample generated image, distinct from `imgA`. -/
def imgB : GeneratedImage :=
  { id := "idB", base64 := "data:image/png;base64,BBBB", prompt := "a cat",
    timestamp := 1, selected := false, aspectRatio := "1:1" }

/-- The image built from `respOneImage` with id `"id0"` at time `7`. -/
def imgC : GeneratedImage :=
  { id := "id0", base64 := "data:image/png;base64,QUJD", prompt := "a cat",
    timestamp := 7, selected := false, aspectRatio := "1:1" }

/-- Two items, both succeeding, with distinct images. -/
def genTwo : Nat → Except String GeneratedImage :=
  fun i => if i = 0 then .ok imgA else .ok imgB

/-- Three items of which item 1 fails: successes at items 0 and 2. -/
def genMix : Nat → Except String GeneratedImage :=
  fun i => if i = 1 then .error "provider failure" else .ok imgA

/-- Every item fails. -/
def genFail : Nat → Except String GeneratedImage :=
  fun _ => .error "quota exceeded"

/-- A text-only response part. -/
def partText : Part := { text := some "Here is your image", inlineData := none }

/-- A response part carrying an inline PNG payload. -/
def partPng : Part :=
  { text := none, inlineData := some { mimeType := "image/png", data := "QUJD" } }

/-- A response with a text part followed by an image part. -/
def respOneImage : Response :=
  { candidates := some [{ content := { parts := some [partText, partPng] } }] }

/-- A response whose parts carry no inline payload at all. -/
def respTextOnly : Response :=
  { candidates := some [{ content := { parts := some [partText] } }] }

/-- A response whose first part carries an inline payload with the given
MIME type and data, followed by arbitrary further parts. -/
def mkInlineResp (mime data : String) (rest : List Part) : Response :=
  let firstPart : Part :=
    { text := none, inlineData := some { mimeType := mime, data := data } }
  { candidates := some [{ content := { parts := some (firstPart :: rest) } }] }

/-- A provider stub answering every instruction with `respOneImage`. -/
def providerW : String → JsResult Response := fun _ => .ok respOneImage

/-- An `onProgress` behaviour that throws on its first two invocations. -/
def cbBoom : Nat → Option String := fun n => if n ≤ 2 then some "crash" else none

/-! Helper lemmas about the batch orchestrator when `onProgress` never throws. -/

theorem runItemContinuation_noThrow (res : Except String GeneratedImage)
    (c : Nat) :
    runItemContinuation res (fun _ => none) c = (c + 1, [c + 1], pureOutcome res) := by
  cases res <;> rfl

theorem processSchedule_noThrow (gen : Nat → Except String GeneratedImage)
    (sched : List Nat) :
    ∀ acc : BatchAcc, processSchedule gen (fun _ => none) sched acc =
      ⟨acc.completed + sched.length,
       acc.calls ++ List.range' (acc.completed + 1) sched.length,
       acc.settled ++ sched.map fun i => (i, pureOutcome (gen i))⟩ := by
  induction sched with
  | nil => intro acc; simp [processSchedule]
  | cons i rest ih =>
    intro acc
    simp only [processSchedule, runItemContinuation_noThrow]
    rw [ih]
    simp [List.range'_succ, BatchAcc.mk.injEq, List.append_assoc]
    omega

theorem firstRejection_map_pure (gen : Nat → Except String GeneratedImage)
    (l : List Nat) :
    firstRejection (l.map fun i => (i, pureOutcome (gen i))) = none := by
  induction l with
  | nil => rfl
  | cons i rest ih =>
    rw [List.map_cons]
    cases hpo : pureOutcome (gen i) with
    | img g => simpa [firstRejection] using ih
    | nullRes => simpa [firstRejection] using ih
    | rejected m =>
      cases hg : gen i <;> rw [hg] at hpo <;> simp [pureOutcome] at hpo

theorem itemResult_map (f : Nat → ItemOutcome) (l : List Nat) (i : Nat)
    (h : i ∈ l) : itemResult (l.map fun j => (j, f j)) i = f i := by
  induction l with
  | nil => cases h
  | cons j rest ih =>
    by_cases hj : j = i
    · subst hj; simp [itemResult]
    · rcases List.mem_cons.mp h with h' | h'
      · exact absurd h'.symm hj
      · simp [itemResult, hj, ih h']

/-- The full behaviour of `generateBatchImages` when the `onProgress`
callback never throws: the callback sees `1, 2, ..., count` and the result
is the successful items in request order. -/
theorem generateBatchImages_noThrow (count : Nat)
    (gen : Nat → Except String GeneratedImage) (sched : List Nat)
    (hp : sched.Perm (List.range count)) :
    generateBatchImages count gen (fun _ => none) sched =
      ⟨List.range' 1 count,
       .ok ((List.range count).filterMap fun i => successOf (gen i))⟩ := by
  have hlen : sched.length = count := by simpa using hp.length_eq
  simp only [generateBatchImages, processSchedule_noThrow]
  simp only [List.nil_append, hlen, firstRejection_map_pure]
  refine congrArg (BatchTrace.mk (List.range' 1 count)) ?_
  refine congrArg JsResult.ok (List.filterMap_congr fun i hi => ?_)
  have hmem : i ∈ sched := hp.mem_iff.mpr hi
  rw [itemResult_map (fun j => pureOutcome (gen j)) sched i hmem]
  cases h : gen i <;> simp [pureOutcome, successOf]

theorem length_filterMap_successOf (gen : Nat → Except String GeneratedImage)
    (l : List Nat) :
    (l.filterMap fun i => successOf (gen i)).length
      = (l.filter fun i => isSuccess (gen i)).length := by
  induction l with
  | nil => rfl
  | cons i t ih =>
    cases hg : gen i with
    | ok g =>
      have h1 : successOf (gen i) = some g := by rw [hg]; rfl
      have h2 : isSuccess (gen i) = true := by rw [hg]; rfl
      simp [List.filterMap_cons, List.filter_cons, h1, h2, ih]
    | error e =>
      have h1 : successOf (gen i) = none := by rw [hg]; rfl
      have h2 : isSuccess (gen i) = false := by rw [hg]; rfl
      simp [List.filterMap_cons, List.filter_cons, h1, h2, ih]

/-! Helper lemmas about the single-item generator. -/

theorem firstInlineData_eq_empty :
    ∀ ps : List Part, (ps.all fun p => !(partHasData p)) = true →
      firstInlineData ps = "" := by
  intro ps
  induction ps with
  | nil => intro _; rfl
  | cons p t ih =>
    intro h
    rw [List.all_cons, Bool.and_eq_true] at h
    obtain ⟨h1, h2⟩ := h
    rw [Bool.not_eq_true'] at h1
    cases hd : p.inlineData with
    | none => simpa [firstInlineData, hd] using ih h2
    | some d =>
      have hdat : d.data = "" := by
        simpa [partHasData, hd] using h1
      simpa [firstInlineData, hd, hdat] using ih h2

/-- Inversion: a successful `generateSingleImageCore` call can only have
come out of the success branch, so the record is fully determined by the
inputs and the extracted payload. -/
theorem generateSingleImageCore_ok_inv (prompt ar : String)
    (sresp : JsResult Response) (freshId : String) (now : Nat)
    (g : GeneratedImage)
    (h : generateSingleImageCore prompt ar sresp freshId now = .ok g) :
    ∃ b : String, b ≠ "" ∧
      g = { id := freshId, base64 := "data:image/png;base64," ++ b,
            prompt := prompt, timestamp := now, selected := false,
            aspectRatio := ar } := by
  cases sresp with
  | thrown m => simp [generateSingleImageCore] at h
  | ok resp =>
    simp only [generateSingleImageCore] at h
    cases he : extractBase64 resp with
    | thrown m => rw [he] at h; simp at h
    | ok b64 =>
      rw [he] at h
      dsimp only at h
      by_cases hb : b64 = ""
      · rw [if_pos hb] at h; simp at h
      · rw [if_neg hb] at h
        simp only [JsResult.ok.injEq] at h
        exact ⟨b64, hb, h.symm⟩

theorem filterMap_successOf_nil (gen : Nat → Except String GeneratedImage)
    (l : List Nat) (h : ∀ i ∈ l, isSuccess (gen i) = false) :
    (l.filterMap fun i => successOf (gen i)) = [] := by
  induction l with
  | nil => rfl
  | cons i t ih =>
    have h1 : successOf (gen i) = none := by
      cases hg : gen i with
      | ok g =>
        have := h i (List.mem_cons_self i t)
        rw [hg] at this
        simp [isSuccess] at this
      | error e => rfl
    simp [List.filterMap_cons, h1,
      ih fun j hj => h j (List.mem_cons_of_mem _ hj)]

/-! The claims. -/

/-- C1 (counterexample): with two items that both succeed and the
second-launched item settling first (schedule `[1, 0]`),
`generateBatchImages` returns `[imgA, imgB]` — request order — while the
settlement order of the successes is `[imgB, imgA]`, and the two lists
differ. So the returned list is not ordered by settlement order. -/
theorem C1_counterexample :
    (generateBatchImages 2 genTwo (fun _ => none) [1, 0]).result
        = JsResult.ok [imgA, imgB]
      ∧ specSettlementOrderResults genTwo [1, 0] = [imgB, imgA]
      ∧ ([imgA, imgB] : List GeneratedImage) ≠ [imgB, imgA] := by
  refine ⟨rfl, rfl, ?_⟩
  decide

/-- C1 (amended): for every invocation of `generateBatchImages` whose
`onProgress` never throws, under every settlement interleaving, the
returned list of successes is ordered by request order (the order the
items were launched, `0 .. count-1`), not by settlement order:
`Promise.all` keeps the positions of its input array. -/
theorem C1_request_order (count : Nat)
    (gen : Nat → Except String GeneratedImage) (sched : List Nat)
    (hp : sched.Perm (List.range count)) :
    (generateBatchImages count gen (fun _ => none) sched).result
      = JsResult.ok ((List.range count).filterMap fun i => successOf (gen i)) := by
  rw [generateBatchImages_noThrow count gen sched hp]

/-- C1 (witness): the amended statement at the counterexample's input. -/
theorem C1_request_order_witness :
    (generateBatchImages 2 genTwo (fun _ => none) [1, 0]).result
      = JsResult.ok ((List.range 2).filterMap fun i => successOf (genTwo i)) :=
  C1_request_order 2 genTwo [1, 0] (by decide)

/-- C2: for every `count ≥ 0`, every mix of per-item successes and failures
`gen`, and every settlement interleaving, the `onProgress` callback is
invoked exactly `count` times with the strictly increasing arguments
`List.range' 1 count = [1, 2, ..., count]`; for `count = 0` the callback is
never invoked and the empty list is returned. -/
theorem C2_progress_calls (count : Nat)
    (gen : Nat → Except String GeneratedImage) (sched : List Nat)
    (hp : sched.Perm (List.range count)) :
    (generateBatchImages count gen (fun _ => none) sched).progressCalls
        = List.range' 1 count
      ∧ (count = 0 →
          generateBatchImages count gen (fun _ => none) sched
            = ⟨[], JsResult.ok []⟩) := by
  rw [generateBatchImages_noThrow count gen sched hp]
  exact ⟨rfl, fun h => by subst h; rfl⟩

/-- C2 (witness): three items, one failing, settling in order `[2, 0, 1]`. -/
theorem C2_progress_calls_witness :
    (generateBatchImages 3 genMix (fun _ => none) [2, 0, 1]).progressCalls
        = List.range' 1 3
      ∧ (3 = 0 →
          generateBatchImages 3 genMix (fun _ => none) [2, 0, 1]
            = ⟨[], JsResult.ok []⟩) :=
  C2_progress_calls 3 genMix [2, 0, 1] (by decide)

/-- C3: whenever `k` of the `count` items succeed, under any settlement
interleaving, the returned list has length exactly `k` and each of its
elements is the value of one successful single-item generation. -/
theorem C3_success_list (count : Nat)
    (gen : Nat → Except String GeneratedImage) (sched : List Nat)
    (hp : sched.Perm (List.range count)) :
    ∃ l, (generateBatchImages count gen (fun _ => none) sched).result
          = JsResult.ok l
      ∧ l.length = ((List.range count).filter fun i => isSuccess (gen i)).length
      ∧ ∀ g ∈ l, ∃ i, i < count ∧ gen i = Except.ok g := by
  refine ⟨(List.range count).filterMap fun i => successOf (gen i), ?_, ?_, ?_⟩
  · rw [generateBatchImages_noThrow count gen sched hp]
  · exact length_filterMap_successOf gen (List.range count)
  · intro g hg
    obtain ⟨i, hi, hsi⟩ := List.mem_filterMap.mp hg
    refine ⟨i, List.mem_range.mp hi, ?_⟩
    cases hgen : gen i with
    | ok g' =>
      rw [hgen] at hsi
      simp only [successOf, Option.some.injEq] at hsi
      rw [hsi]
    | error e =>
      rw [hgen] at hsi
      simp [successOf] at hsi

/-- C3 (witness): three items with exactly two successes. -/
theorem C3_success_list_witness :
    ∃ l, (generateBatchImages 3 genMix (fun _ => none) [1, 2, 0]).result
          = JsResult.ok l
      ∧ l.length = ((List.range 3).filter fun i => isSuccess (genMix i)).length
      ∧ ∀ g ∈ l, ∃ i, i < 3 ∧ genMix i = Except.ok g :=
  C3_success_list 3 genMix [1, 2, 0] (by decide)

/-- C4 (counterexample): the claim's "for every input" fails when the
`onProgress` callback itself throws: with one succeeding item and a
callback that throws on every invocation, `generateBatchImages` rejects
instead of resolving. -/
theorem C4_counterexample :
    (generateBatchImages 1 (fun _ => Except.ok imgA)
        (fun _ => some "boom") [0]).result
      = JsResult.thrown "boom" := rfl

/-- C4 (amended): provided the `onProgress` callback never throws,
`generateBatchImages` never raises: under every settlement interleaving it
resolves with the list of successes, and when every item fails it resolves
with the empty list — no item's error reaches the caller. -/
theorem C4_never_raises (count : Nat)
    (gen : Nat → Except String GeneratedImage) (sched : List Nat)
    (hp : sched.Perm (List.range count)) :
    (∃ l, (generateBatchImages count gen (fun _ => none) sched).result
          = JsResult.ok l)
    ∧ ((∀ i, i < count → isSuccess (gen i) = false) →
        (generateBatchImages count gen (fun _ => none) sched).result
          = JsResult.ok []) := by
  rw [generateBatchImages_noThrow count gen sched hp]
  refine ⟨⟨_, rfl⟩, fun hall => ?_⟩
  exact congrArg JsResult.ok
    (filterMap_successOf_nil gen _ fun i hi => hall i (List.mem_range.mp hi))

/-- C4 (witness): a two-item batch in which every item fails. -/
theorem C4_never_raises_witness :
    (∃ l, (generateBatchImages 2 genFail (fun _ => none) [0, 1]).result
          = JsResult.ok l)
    ∧ ((∀ i, i < 2 → isSuccess (genFail i) = false) →
        (generateBatchImages 2 genFail (fun _ => none) [0, 1]).result
          = JsResult.ok []) :=
  C4_never_raises 2 genFail [0, 1] (by decide)

/-- C5: the instruction text `generateSingleImage` sends to the provider
is the persona text, the delimiter `"\n\n"`, the label `"User Request: "`
and the prompt — persona first, prompt second — when the persona is
non-empty, and exactly the prompt verbatim when it is empty. -/
theorem C5_instruction_text (prompt persona ar freshId : String) (now : Nat)
    (provider : String → JsResult Response) :
    (persona ≠ "" →
      generateSingleImage prompt persona ar provider freshId now
        = generateSingleImageCore prompt ar
            (provider (persona ++ "\n\nUser Request: " ++ prompt)) freshId now)
    ∧ (persona = "" →
      generateSingleImage prompt persona ar provider freshId now
        = generateSingleImageCore prompt ar (provider prompt) freshId now) :=
  ⟨fun h => by simp only [generateSingleImage, fullPrompt, if_neg h],
   fun h => by simp only [generateSingleImage, fullPrompt, if_pos h]⟩

/-- C5 (witness): both cases at concrete texts. -/
theorem C5_instruction_text_witness :
    ("Persona text" ≠ "" →
      generateSingleImage "a cat" "Persona text" "1:1" providerW "id0" 7
        = generateSingleImageCore "a cat" "1:1"
            (providerW ("Persona text" ++ "\n\nUser Request: " ++ "a cat"))
            "id0" 7)
    ∧ ("Persona text" = "" →
      generateSingleImage "a cat" "Persona text" "1:1" providerW "id0" 7
        = generateSingleImageCore "a cat" "1:1" (providerW "a cat") "id0" 7) :=
  C5_instruction_text "a cat" "Persona text" "1:1" "id0" 7 providerW

/-- C6: whenever the provider responds without any truthy inline payload
among its content parts — only text parts, an empty parts list, an absent
parts list, or absent candidates — `generateSingleImage` fails with the
`"No image data found in response"` error rather than succeeding with an
empty payload. -/
theorem C6_no_image_data (r : Response) (hr : noInlinePayload r = true)
    (prompt persona ar freshId : String) (now : Nat) :
    generateSingleImage prompt persona ar (fun _ => JsResult.ok r) freshId now
      = JsResult.thrown "No image data found in response" := by
  have hbase : extractBase64 r = JsResult.ok "" := by
    unfold extractBase64
    unfold noInlinePayload at hr
    cases hc : r.candidates with
    | none => rfl
    | some cands =>
      rw [hc] at hr
      cases cands with
      | nil => simp at hr
      | cons c rest =>
        dsimp only at hr ⊢
        cases hp : c.content.parts with
        | none => rfl
        | some ps =>
          rw [hp] at hr
          dsimp only at hr ⊢
          rw [firstInlineData_eq_empty ps hr]
  simp [generateSingleImage, generateSingleImageCore, hbase]

/-- C6 (witness): a response with a single text part. -/
theorem C6_no_image_data_witness :
    generateSingleImage "a cat" "" "1:1" (fun _ => JsResult.ok respTextOnly)
        "id2" 3
      = JsResult.thrown "No image data found in response" :=
  C6_no_image_data respTextOnly rfl "a cat" "" "1:1" "id2" 3

/-- C7: every successful `generateSingleImage` call returns a record with
the originally requested aspect ratio, a copy of the originating prompt,
the freshly stamped identifier, the capture-time timestamp, and a non-empty
payload wrapped as a PNG data URI. -/
theorem C7_success_fields (prompt persona ar freshId : String) (now : Nat)
    (provider : String → JsResult Response) (g : GeneratedImage)
    (h : generateSingleImage prompt persona ar provider freshId now
          = JsResult.ok g) :
    g.aspectRatio = ar ∧ g.prompt = prompt ∧ g.id = freshId ∧ g.timestamp = now
      ∧ ∃ b : String, b ≠ "" ∧ g.base64 = "data:image/png;base64," ++ b := by
  obtain ⟨b, hb, hg⟩ :=
    generateSingleImageCore_ok_inv prompt ar _ freshId now g h
  subst hg
  exact ⟨rfl, rfl, rfl, rfl, b, hb, rfl⟩

/-- C7 (witness): a concrete successful call. -/
theorem C7_success_fields_witness :
    imgC.aspectRatio = "1:1" ∧ imgC.prompt = "a cat" ∧ imgC.id = "id0"
      ∧ imgC.timestamp = 7
      ∧ ∃ b : String, b ≠ "" ∧ imgC.base64 = "data:image/png;base64," ++ b :=
  C7_success_fields "a cat" "" "1:1" "id0" 7
    (fun _ => JsResult.ok respOneImage) imgC rfl

/-- C8 (counterexample): the result record does carry a presentation-layer
flag — a concrete successful call returns a record with the `selected`
field present and initialised to `false` by the generator itself, refuting
"the record contains no presentation-layer field such as selected". -/
theorem C8_counterexample :
    generateSingleImage "a cat" "" "1:1" (fun _ => JsResult.ok respOneImage)
        "id8" 9
      = JsResult.ok { id := "id8", base64 := "data:image/png;base64,QUJD",
                      prompt := "a cat", timestamp := 9, selected := false,
                      aspectRatio := "1:1" } := rfl

/-- C8 (amended): the result type does carry the transient UI flag
`selected` — the generator itself initialises it to `false` on every
returned image (the presentation layer then owns toggling it). -/
theorem C8_selected_false (prompt persona ar freshId : String) (now : Nat)
    (provider : String → JsResult Response) (g : GeneratedImage)
    (h : generateSingleImage prompt persona ar provider freshId now
          = JsResult.ok g) :
    g.selected = false := by
  obtain ⟨b, hb, hg⟩ :=
    generateSingleImageCore_ok_inv prompt ar _ freshId now g h
  subst hg
  rfl

/-- C8 (witness): the amended statement at a concrete successful call. -/
theorem C8_selected_false_witness : imgC.selected = false :=
  C8_selected_false "a cat" "" "1:1" "id0" 7
    (fun _ => JsResult.ok respOneImage) imgC rfl

/-- C9: the parser takes the first part carrying any truthy inline payload
without inspecting its declared MIME type: whatever `mime` declares (for
example `"text/plain"`) and whatever parts follow, the first inline
payload is selected and tagged as PNG in the result. -/
theorem C9_mime_ignored (mime data : String) (rest : List Part)
    (prompt persona ar freshId : String) (now : Nat) (hd : data ≠ "") :
    generateSingleImage prompt persona ar
      (fun _ => JsResult.ok (mkInlineResp mime data rest)) freshId now
      = JsResult.ok { id := freshId,
                      base64 := "data:image/png;base64," ++ data,
                      prompt := prompt, timestamp := now, selected := false,
                      aspectRatio := ar } := by
  simp [generateSingleImage, generateSingleImageCore, extractBase64,
    mkInlineResp, firstInlineData, hd]

/-- C9 (witness): a `text/plain` inline part followed by an `image/png`
part — the `text/plain` payload wins and is tagged as PNG. -/
theorem C9_mime_ignored_witness :
    generateSingleImage "a cat" "" "1:1"
      (fun _ => JsResult.ok (mkInlineResp "text/plain" "Zm9v" [partPng]))
      "id9" 4
      = JsResult.ok { id := "id9",
                      base64 := "data:image/png;base64," ++ "Zm9v",
                      prompt := "a cat", timestamp := 4, selected := false,
                      aspectRatio := "1:1" } :=
  C9_mime_ignored "text/plain" "Zm9v" [partPng] "a cat" "" "1:1" "id9" 4
    (by decide)

/-- C10: when the item succeeds but `onProgress` throws on its invocation
(`cb 1 = some m`), the `catch` block bumps the shared counter again and
invokes `onProgress` a second time for the same item (calls `[1, 2]` for a
one-item batch, two invocations instead of one), the successful image is
discarded (the resolved list is empty), and if the second invocation also
throws the whole batch rejects with that error. -/
theorem C10_throwing_callback (g : GeneratedImage) (cb : Nat → Option String)
    (m : String) (hm : cb 1 = some m) :
    generateBatchImages 1 (fun _ => Except.ok g) cb [0]
      = ⟨[1, 2],
         match cb 2 with
         | some m2 => JsResult.thrown m2
         | none => JsResult.ok []⟩ := by
  cases h2 : cb 2 with
  | none =>
    simp [generateBatchImages, processSchedule, runItemContinuation,
      firstRejection, itemResult, hm, h2]
  | some m2 =>
    simp [generateBatchImages, processSchedule, runItemContinuation,
      firstRejection, itemResult, hm, h2]

/-- C10 (witness): a callback throwing `"crash"` on its first two
invocations makes the one-item batch call `onProgress` twice and reject. -/
theorem C10_throwing_callback_witness :
    generateBatchImages 1 (fun _ => Except.ok imgA) cbBoom [0]
      = ⟨[1, 2],
         match cbBoom 2 with
         | some m2 => JsResult.thrown m2
         | none => JsResult.ok []⟩ :=
  C10_throwing_callback imgA cbBoom "crash" rfl

end NanoBanana
